import Mathlib

/-!
Verification of the client-side state logic of the `google-lita-sorpa-voice`
front end (`App.tsx`): the connection-state indicator, the display log,
the microphone capture callback, the playback-buffer scheduler with its
single next-start-time scalar, the in-flight source set used for
interruption handling, and the teardown routine.

The browser and vendor-SDK environment is made explicit: wall-clock reads
(`Date.now()`), the `currentTime` clock of the output `AudioContext`, decoded audio
buffers, and incoming server messages are parameters of the step
functions.  Opaque handles (audio contexts, media stream, script
processor, gain node, session object) are modelled as `Option Unit`:
only their presence or absence is observable to the logic under study.
Times and audio samples are idealised as exact rationals (every IEEE
double is a rational); the one square root (`Math.sqrt` in the volume
meter) is idealised as the exact real square root.
-/

namespace LitlaSorpa

/-- Connection indicator from `types.ts` (`ConnectionState`), re-exported
and consumed by `App.tsx`: disconnected / connecting / connected / error. -/
inductive ConnectionState where
  | DISCONNECTED
  | CONNECTING
  | CONNECTED
  | ERROR
deriving DecidableEq, Repr

/-- Tag of a display-log entry (`LogMessage.type` in `App.tsx`):
the string union of user, model and system. -/
inductive LogType where
  | user
  | model
  | system
deriving DecidableEq, Repr

/-- A display-log entry (`LogMessage` in `App.tsx`): tag, text, and the
`Date.now()` timestamp recorded when the entry was appended. -/
structure LogMessage where
  type : LogType
  text : String
  timestamp : Nat
deriving DecidableEq, Repr

/-- The `addLog` helper of `App.tsx`:
`setLogs(prev => [...prev, { type, text, timestamp: Date.now() }])`.
The wall-clock read `Date.now()` is the explicit parameter `now`. -/
def addLog (type : LogType) (text : String) (now : Nat)
    (logs : List LogMessage) : List LogMessage :=
  logs ++ [{ type := type, text := text, timestamp := now }]

/-- A decoded PCM audio buffer, as produced by `decodeAudioData` from the
base64 payload of a server message.  Only its duration (seconds, as read
by `audioBuffer.duration`) is observable to the scheduling logic. -/
structure AudioBuffer where
  duration : ℚ
deriving DecidableEq, Repr

/-- An `AudioBufferSourceNode` created by `ctx.createBufferSource()` and
started at `startTime`.  The `id` stands for the object identity of the node,
so that membership in the in-flight set and stop calls can be tracked. -/
structure SourceNode where
  id : Nat
  buffer : AudioBuffer
  startTime : ℚ
deriving DecidableEq, Repr

/-- Modelled from the spec: `createBlob` lives in `utils/audio.ts`, which
is not under `src/`; per the spec it base64/PCM-encodes a microphone
frame into a blob for `sendRealtimeInput`.  The encoding is injective,
so the blob is modelled as carrying the sample list of the frame. -/
structure Blob where
  data : List ℚ
deriving DecidableEq, Repr

/-- Modelled from the spec: the PCM/base64 encoding step of
`utils/audio.ts`, applied to one fixed-size microphone frame. -/
def createBlob (frame : List ℚ) : Blob :=
  { data := frame }

/-- An image file chosen in the upload input: its MIME type and the
base64 payload extracted from the `FileReader` data URL. -/
structure ImageFile where
  mimeType : String
  data : String
deriving DecidableEq, Repr

/-- A payload handed to `session.sendRealtimeInput` in `App.tsx`:
a PCM audio blob (capture callback), an inline image (image upload),
or a text turn (`handleSendText`). -/
inductive OutMessage where
  | realtimeAudio (blob : Blob)
  | imageMsg (mimeType : String) (data : String)
  | textMsg (text : String)
deriving DecidableEq, Repr

/-- An incoming `LiveServerMessage`, restricted to the fields `onmessage`
reads: `serverContent?.modelTurn?.parts[0]?.inlineData?.data` (abstracted
to the decoded buffer it yields, `none` when the optional chain is empty),
`serverContent?.turnComplete`, and `serverContent?.interrupted`. -/
structure ServerMessage where
  audioData : Option AudioBuffer
  turnComplete : Bool
  interrupted : Bool
deriving DecidableEq, Repr

/-- The mutable client state of the `App` component: the four React state
cells (`connectionState`, `logs`, `volume`, `textInput`) and the refs
declared at the top of `App.tsx`.  `sources` is the in-flight set
`sourcesRef` (a JS `Set`, iterated in insertion order), `nextStartTime`
is the scalar `nextStartTimeRef`, and `nextSourceId` supplies fresh
object identities for created source nodes.  `stoppedIds` records, in
order, every source node on which `.stop()` has been called, and `sent`
records every payload handed to `session.sendRealtimeInput`; both are
write-only effect logs of the environment. -/
structure AppState where
  connectionState : ConnectionState
  logs : List LogMessage
  volume : ℝ
  textInput : String
  inputAudioContext : Option Unit
  outputAudioContext : Option Unit
  mediaStream : Option Unit
  scriptProcessor : Option Unit
  outputNode : Option Unit
  nextStartTime : ℚ
  sources : List SourceNode
  session : Option Unit
  nextSourceId : Nat
  stoppedIds : List Nat
  sent : List OutMessage

/-- The `cleanup` callback of `App.tsx` (lines 43-76): drop the session
ref, stop and drop the media stream, close and drop both audio contexts,
stop every in-flight source and clear the set, drop the script processor
and output node, reset the next-start-time scalar, the volume and the
text input.  The null-guards in the source (`if (ref.current) ...`) only
guard external side effects; the resulting state is the same with or
without them, so the model assigns the cleared values directly. -/
def cleanup (s : AppState) : AppState :=
  { s with
    session := none
    mediaStream := none
    inputAudioContext := none
    outputAudioContext := none
    stoppedIds := s.stoppedIds ++ s.sources.map SourceNode.id
    sources := []
    scriptProcessor := none
    outputNode := none
    nextStartTime := 0
    volume := 0
    textInput := "" }

/-- The synchronous body of `handleConnect` up to the session assignment
(lines 78-111, 232-233), on the success path: set CONNECTING, log the two
system messages, create both audio contexts, the output gain node, the
microphone stream, and record the resolved session.  Both `Date.now()`
reads of this path are summarised by the single parameter `now`. -/
def handleConnectStart (now : Nat) (s : AppState) : AppState :=
  { s with
    connectionState := ConnectionState.CONNECTING
    logs := addLog LogType.system "Tengist Gemini Live..." now
              (addLog LogType.system "Frumstilli hljóðbúnað..." now s.logs)
    inputAudioContext := some ()
    outputAudioContext := some ()
    outputNode := some ()
    mediaStream := some ()
    session := some () }

/-- The `catch` branch of `handleConnect` (lines 235-240): log the
failure, set ERROR, tear everything down. -/
def connectFailure (now : Nat) (s : AppState) : AppState :=
  cleanup { s with
    logs := addLog LogType.system "Tenging mistókst." now s.logs
    connectionState := ConnectionState.ERROR }

/-- The `onopen` session callback (lines 143-171): log, set CONNECTED,
and install the script-processor capture pipeline. -/
def onopen (now : Nat) (s : AppState) : AppState :=
  { s with
    logs := addLog LogType.system "Tenging komin! Byrjaðu að tala." now s.logs
    connectionState := ConnectionState.CONNECTED
    scriptProcessor := some () }

/-- First block of the `onmessage` session callback (lines 173-202,
the Handle Audio Output comment): if the message carries audio and the output
context and node are present, clamp the next-start-time scalar up to
`ctx.currentTime` (`Math.max(nextStartTimeRef.current, ctx.currentTime)`),
decode the buffer, schedule a fresh source at the clamped time, advance
the scalar by the duration of the buffer (the single scalar
`nextStartTimeRef` tracks the running next start time), add the source
to the in-flight set, and pulse the visualizer volume. -/
def onmessageAudio (currentTime : ℚ) (msg : ServerMessage)
    (s : AppState) : AppState :=
  match msg.audioData with
  | some buf =>
    if s.outputAudioContext.isSome && s.outputNode.isSome then
      let start := max s.nextStartTime currentTime
      { s with
        nextStartTime := start + buf.duration
        sources := s.sources ++
          [{ id := s.nextSourceId, buffer := buf, startTime := start }]
        nextSourceId := s.nextSourceId + 1
        volume := 0.5 }
    else s
  | none => s

/-- Second block of `onmessage` (lines 204-208, Handle Turn Complete):
if `turnComplete`, log and zero the volume. -/
def onmessageTurnComplete (now : Nat) (msg : ServerMessage)
    (s : AppState) : AppState :=
  if msg.turnComplete then
    { s with
      logs := addLog LogType.system "Svari lokið." now s.logs
      volume := 0 }
  else s

/-- Third block of `onmessage` (lines 210-216, Handle Interruption):
if `interrupted`, log, stop every source in the in-flight set, clear the
set, and reset the next-start-time scalar to zero. -/
def onmessageInterrupted (now : Nat) (msg : ServerMessage)
    (s : AppState) : AppState :=
  if msg.interrupted then
    { s with
      logs := addLog LogType.system "Gripið fram í." now s.logs
      stoppedIds := s.stoppedIds ++ s.sources.map SourceNode.id
      sources := []
      nextStartTime := 0 }
  else s

/-- The `onmessage` session callback (lines 172-217): the three blocks
above, in source order. -/
def onmessage (currentTime : ℚ) (now : Nat) (msg : ServerMessage)
    (s : AppState) : AppState :=
  onmessageInterrupted now msg
    (onmessageTurnComplete now msg (onmessageAudio currentTime msg s))

/-- The `onclose` session callback (lines 218-222): log, set
DISCONNECTED, tear down. -/
def onclose (now : Nat) (s : AppState) : AppState :=
  cleanup { s with
    logs := addLog LogType.system "Tengingu lokað." now s.logs
    connectionState := ConnectionState.DISCONNECTED }

/-- The `onerror` session callback (lines 223-228): log, set ERROR,
tear down.  There is no other recovery action. -/
def onerror (now : Nat) (s : AppState) : AppState :=
  cleanup { s with
    logs := addLog LogType.system "Villa kom upp. Skoðaðu console." now s.logs
    connectionState := ConnectionState.ERROR }

/-- The `handleDisconnect` handler (lines 243-247): tear down, set
DISCONNECTED, log. -/
def handleDisconnect (now : Nat) (s : AppState) : AppState :=
  let c := cleanup s
  { c with
    connectionState := ConnectionState.DISCONNECTED
    logs := addLog LogType.system "Notandi endaði setu." now c.logs }

/-- The JavaScript built-in `String.prototype.trim` used by
`handleSendText`: strip leading and trailing whitespace.  It is written
by structural recursion over the character list so that proofs can
evaluate it; `Char.isWhitespace` stands for the JS whitespace class. -/
def jsTrim (s : String) : String :=
  ⟨((s.data.dropWhile Char.isWhitespace).reverse.dropWhile
      Char.isWhitespace).reverse⟩

/-- The `handleSendText` handler (lines 282-296): return unchanged when
the input trims to empty or there is no session; otherwise append one
user-tagged log entry with the trimmed text, send the trimmed text to the
session, and clear the text input. -/
def handleSendText (now : Nat) (s : AppState) : AppState :=
  if jsTrim s.textInput = "" ∨ s.session = none then s
  else
    { s with
      logs := addLog LogType.user (jsTrim s.textInput) now s.logs
      sent := s.sent ++ [OutMessage.textMsg (jsTrim s.textInput)]
      textInput := "" }

/-- The `handleKeyDown` handler (lines 298-302): Enter submits the text
input. -/
def handleKeyDown (key : String) (now : Nat) (s : AppState) : AppState :=
  if key = "Enter" then handleSendText now s else s

/-- The `onChange` handler of the text input (line 398):
`setTextInput(e.target.value)`. -/
def onTextInputChange (t : String) (s : AppState) : AppState :=
  { s with textInput := t }

/-- The ended-event listener installed on each scheduled source (lines
192-194): remove the finished node from the in-flight set. -/
def sourceEnded (i : Nat) (s : AppState) : AppState :=
  { s with sources := s.sources.filter (fun src => src.id ≠ i) }

/-- The `handleImageUpload` handler (lines 249-280): with a file and a
live session, log, read the file, send its base64 payload with its MIME
type, and log the user entry.  The `FileReader` round trip is summarised
by the file already carrying its base64 payload. -/
def handleImageUpload (now : Nat) (file : Option ImageFile)
    (s : AppState) : AppState :=
  match file with
  | none => s
  | some f =>
    if s.session = none then s
    else
      { s with
        logs := addLog LogType.user "Sendi mynd til greiningar" now
                  (addLog LogType.system "Sendi mynd..." now s.logs)
        sent := s.sent ++ [OutMessage.imageMsg f.mimeType f.data] }

/-- Sum of squared samples of one microphone frame: the loop
`for(let i=0; i<inputData.length; i++) sum += inputData[i] * inputData[i]`
of `onaudioprocess` (lines 156-157). -/
def sumSq (frame : List ℚ) : ℚ :=
  (frame.map fun x => x * x).sum

/-- The RMS volume scalar of one frame:
`Math.sqrt(sum / inputData.length)` (line 158), idealised as the exact
real square root of the mean of the squared samples. -/
noncomputable def rms (frame : List ℚ) : ℝ :=
  Real.sqrt ((sumSq frame : ℝ) / (frame.length : ℝ))

/-- The `onaudioprocess` capture callback (lines 152-167): compute the
RMS of the frame, update the smoothed visualizer volume
(`setVolume(v => Math.max(rms * 5, v * 0.9))`), PCM-encode the frame and
hand it to `session.sendRealtimeInput`. -/
noncomputable def onaudioprocess (frame : List ℚ) (s : AppState) : AppState :=
  { s with
    volume := max (rms frame * 5) (s.volume * 0.9)
    sent := s.sent ++ [OutMessage.realtimeAudio (createBlob frame)] }

/-- Every entry point that steps the client state: the session lifecycle
callbacks, the user-interface handlers, the capture callback, and the
per-source ended listener.  Environment inputs (clock reads, context
time, message payloads, frames, key strokes, files) ride on the event. -/
inductive Event where
  | connectStart (now : Nat)
  | connectFailed (now : Nat)
  | sessionOpen (now : Nat)
  | sessionMessage (currentTime : ℚ) (now : Nat) (msg : ServerMessage)
  | sessionClose (now : Nat)
  | sessionError (now : Nat)
  | disconnect (now : Nat)
  | sendText (now : Nat)
  | keyDown (key : String) (now : Nat)
  | audioFrame (frame : List ℚ)
  | sourceDone (i : Nat)
  | textInputChange (t : String)
  | imageUpload (now : Nat) (file : Option ImageFile)

/-- One step of the client: dispatch an event to the handler `App.tsx`
installs for it. -/
noncomputable def step (e : Event) (s : AppState) : AppState :=
  match e with
  | Event.connectStart now => handleConnectStart now s
  | Event.connectFailed now => connectFailure now s
  | Event.sessionOpen now => onopen now s
  | Event.sessionMessage ct now msg => onmessage ct now msg s
  | Event.sessionClose now => onclose now s
  | Event.sessionError now => onerror now s
  | Event.disconnect now => handleDisconnect now s
  | Event.sendText now => handleSendText now s
  | Event.keyDown key now => handleKeyDown key now s
  | Event.audioFrame frame => onaudioprocess frame s
  | Event.sourceDone i => sourceEnded i s
  | Event.textInputChange t => onTextInputChange t s
  | Event.imageUpload now file => handleImageUpload now file s

/-- The events whose handlers contain a `setConnectionState` call:
`handleConnect` (CONNECTING, and ERROR in its catch branch),
`handleDisconnect` (DISCONNECTED), and the session callbacks `onopen`
(CONNECTED), `onclose` (DISCONNECTED) and `onerror` (ERROR). -/
def Event.setsConnectionState : Event → Bool
  | Event.connectStart _ => true
  | Event.connectFailed _ => true
  | Event.sessionOpen _ => true
  | Event.sessionClose _ => true
  | Event.sessionError _ => true
  | Event.disconnect _ => true
  | _ => false

/-- The state of the freshly mounted component: every `useState` and
`useRef` initialiser at the top of `App.tsx`. -/
def initialState : AppState :=
  { connectionState := ConnectionState.DISCONNECTED
    logs := []
    volume := 0
    textInput := ""
    inputAudioContext := none
    outputAudioContext := none
    mediaStream := none
    scriptProcessor := none
    outputNode := none
    nextStartTime := 0
    sources := []
    session := none
    nextSourceId := 0
    stoppedIds := []
    sent := [] }

/-- A state in which every field `cleanup` writes already holds its
cleared value. -/
def IsClean (s : AppState) : Prop :=
  s.session = none ∧ s.mediaStream = none ∧ s.inputAudioContext = none ∧
  s.outputAudioContext = none ∧ s.sources = [] ∧ s.scriptProcessor = none ∧
  s.outputNode = none ∧ s.nextStartTime = 0 ∧ s.volume = 0 ∧ s.textInput = ""

/-- Timestamps of a log, in list order. -/
def logTimes (logs : List LogMessage) : List Nat :=
  logs.map LogMessage.timestamp

/-- A run of `addLog` calls: each operation carries its tag, its text and
the `Date.now()` value read when it executes. -/
def runLog : List (LogType × String × Nat) → List LogMessage → List LogMessage
  | [], logs => logs
  | (ty, tx, t) :: rest, logs => runLog rest (addLog ty tx t logs)

/-- Sample state: a mounted client whose output context and output node
exist, as they do whenever the live session delivers audio. -/
def schedState : AppState :=
  { initialState with outputAudioContext := some (), outputNode := some () }

/-- Sample server message carrying a one-second decoded audio buffer. -/
def bufMsg : ServerMessage :=
  { audioData := some { duration := 1 }, turnComplete := false, interrupted := false }

/-- Sample server message carrying only the interrupted flag. -/
def interruptedMsg : ServerMessage :=
  { audioData := none, turnComplete := false, interrupted := true }

/-- Sample state with one scheduled source in the in-flight set and a
nonzero next-start-time scalar. -/
def playingState : AppState :=
  { initialState with
    sources := [{ id := 0, buffer := { duration := 1 }, startTime := 0 }]
    nextStartTime := 7 }

/-- Sample state of a connected client. -/
def connectedState : AppState :=
  { initialState with connectionState := ConnectionState.CONNECTED }

/-- Sample state with a live session and a nonempty text input. -/
def sendTextState : AppState :=
  { initialState with textInput := " hi ", session := some () }

/-! Helper lemmas shared by the claim theorems. -/

/-- The audio block only ever appends to the in-flight set. -/
lemma onmessageAudio_sources_mono (currentTime : ℚ) (msg : ServerMessage)
    (s : AppState) {src : SourceNode} (h : src ∈ s.sources) :
    src ∈ (onmessageAudio currentTime msg s).sources := by
  unfold onmessageAudio
  split
  · split
    · simp only [List.mem_append]; exact Or.inl h
    · exact h
  · exact h

/-- The audio block never stops a source. -/
lemma onmessageAudio_stoppedIds (currentTime : ℚ) (msg : ServerMessage)
    (s : AppState) :
    (onmessageAudio currentTime msg s).stoppedIds = s.stoppedIds := by
  unfold onmessageAudio
  split
  · split <;> rfl
  · rfl

/-- The turn-complete block does not touch the in-flight set. -/
lemma onmessageTurnComplete_sources (now : Nat) (msg : ServerMessage)
    (s : AppState) :
    (onmessageTurnComplete now msg s).sources = s.sources := by
  unfold onmessageTurnComplete; split <;> rfl

/-- The turn-complete block does not stop sources. -/
lemma onmessageTurnComplete_stoppedIds (now : Nat) (msg : ServerMessage)
    (s : AppState) :
    (onmessageTurnComplete now msg s).stoppedIds = s.stoppedIds := by
  unfold onmessageTurnComplete; split <;> rfl

/-- The turn-complete block does not touch the next-start-time scalar. -/
lemma onmessageTurnComplete_nextStartTime (now : Nat) (msg : ServerMessage)
    (s : AppState) :
    (onmessageTurnComplete now msg s).nextStartTime = s.nextStartTime := by
  unfold onmessageTurnComplete; split <;> rfl

/-- The audio block does not touch the connection state. -/
lemma onmessageAudio_connectionState (currentTime : ℚ) (msg : ServerMessage)
    (s : AppState) :
    (onmessageAudio currentTime msg s).connectionState = s.connectionState := by
  unfold onmessageAudio
  split
  · split <;> rfl
  · rfl

/-- The turn-complete block does not touch the connection state. -/
lemma onmessageTurnComplete_connectionState (now : Nat) (msg : ServerMessage)
    (s : AppState) :
    (onmessageTurnComplete now msg s).connectionState = s.connectionState := by
  unfold onmessageTurnComplete; split <;> rfl

/-- The interruption block does not touch the connection state. -/
lemma onmessageInterrupted_connectionState (now : Nat) (msg : ServerMessage)
    (s : AppState) :
    (onmessageInterrupted now msg s).connectionState = s.connectionState := by
  unfold onmessageInterrupted; split <;> rfl

/-- The message callback never touches the connection state. -/
lemma onmessage_connectionState (currentTime : ℚ) (now : Nat)
    (msg : ServerMessage) (s : AppState) :
    (onmessage currentTime now msg s).connectionState = s.connectionState := by
  unfold onmessage
  rw [onmessageInterrupted_connectionState, onmessageTurnComplete_connectionState,
    onmessageAudio_connectionState]

/-- Sending a text turn never touches the connection state. -/
lemma handleSendText_connectionState (now : Nat) (s : AppState) :
    (handleSendText now s).connectionState = s.connectionState := by
  unfold handleSendText; split <;> rfl

/-- A key stroke never touches the connection state. -/
lemma handleKeyDown_connectionState (key : String) (now : Nat) (s : AppState) :
    (handleKeyDown key now s).connectionState = s.connectionState := by
  unfold handleKeyDown
  split
  · exact handleSendText_connectionState now s
  · rfl

/-- An image upload never touches the connection state. -/
lemma handleImageUpload_connectionState (now : Nat) (file : Option ImageFile)
    (s : AppState) :
    (handleImageUpload now file s).connectionState = s.connectionState := by
  unfold handleImageUpload
  split
  · rfl
  · split <;> rfl

/-- A run of `addLog` calls appends, in order, one entry per call. -/
lemma runLog_eq_append (ops : List (LogType × String × Nat))
    (logs : List LogMessage) :
    runLog ops logs =
      logs ++ ops.map
        (fun o => { type := o.1, text := o.2.1, timestamp := o.2.2 }) := by
  induction ops generalizing logs with
  | nil => simp [runLog]
  | cons o rest ih =>
    obtain ⟨ty, tx, t⟩ := o
    simp [runLog, addLog, ih]

/-- The sum of squared samples of a frame is nonnegative. -/
lemma sumSq_nonneg (frame : List ℚ) : 0 ≤ sumSq frame := by
  unfold sumSq
  apply List.sum_nonneg
  intro x hx
  obtain ⟨y, _, rfl⟩ := List.mem_map.mp hx
  exact mul_self_nonneg y

/-! The claim theorems. -/

/-- C1: every message from the live session that carries a decoded PCM
buffer (and is not itself an interruption signal) schedules that buffer
to start at the maximum of the tracked next-start-time scalar and the
current time of the output context, and afterwards the scalar — the
single reference `nextStartTimeRef` — equals that chosen start time plus
the duration of the buffer. -/
theorem onmessage_audio_schedules_at_max
    (currentTime : ℚ) (now : Nat) (msg : ServerMessage) (buf : AudioBuffer)
    (s : AppState)
    (hA : msg.audioData = some buf)
    (hI : msg.interrupted = false)
    (hCtx : s.outputAudioContext.isSome = true)
    (hNode : s.outputNode.isSome = true) :
    (onmessage currentTime now msg s).sources =
      s.sources ++ [{ id := s.nextSourceId, buffer := buf,
                      startTime := max s.nextStartTime currentTime }] ∧
    (onmessage currentTime now msg s).nextStartTime =
      max s.nextStartTime currentTime + buf.duration := by
  unfold onmessage onmessageInterrupted
  simp only [hI, Bool.false_eq_true, if_false,
    onmessageTurnComplete_sources, onmessageTurnComplete_nextStartTime]
  unfold onmessageAudio
  simp [hA, hCtx, hNode]

/-- Witness for C1 at a concrete message and state. -/
theorem onmessage_audio_schedules_at_max_witness :
    (onmessage 5 0 bufMsg schedState).sources =
      schedState.sources ++
        [{ id := schedState.nextSourceId
           buffer := { duration := 1 }
           startTime := max schedState.nextStartTime 5 }] ∧
    (onmessage 5 0 bufMsg schedState).nextStartTime =
      max schedState.nextStartTime 5 +
        ({ duration := 1 } : AudioBuffer).duration :=
  onmessage_audio_schedules_at_max 5 0 bufMsg { duration := 1 } schedState
    rfl rfl rfl rfl

/-- C2: on a message whose server content carries the interrupted flag,
every audio source in the in-flight set is stopped, the set becomes
empty, and the next-start-time scalar is reset to zero. -/
theorem onmessage_interrupted_stops_all
    (currentTime : ℚ) (now : Nat) (msg : ServerMessage) (s : AppState)
    (hI : msg.interrupted = true) :
    (onmessage currentTime now msg s).sources = [] ∧
    (onmessage currentTime now msg s).nextStartTime = 0 ∧
    ∀ src ∈ s.sources,
      src.id ∈ (onmessage currentTime now msg s).stoppedIds := by
  unfold onmessage onmessageInterrupted
  simp only [hI, if_true]
  refine ⟨trivial, trivial, ?_⟩
  intro src hsrc
  simp only [onmessageTurnComplete_sources, onmessageTurnComplete_stoppedIds,
    onmessageAudio_stoppedIds, List.mem_append, List.mem_map]
  exact Or.inr ⟨src, onmessageAudio_sources_mono currentTime msg s hsrc, rfl⟩

/-- Witness for C2 at a concrete interruption message and a state with
one in-flight source. -/
theorem onmessage_interrupted_stops_all_witness :
    (onmessage 0 3 interruptedMsg playingState).sources = [] ∧
    (onmessage 0 3 interruptedMsg playingState).nextStartTime = 0 ∧
    ∀ src ∈ playingState.sources,
      src.id ∈ (onmessage 0 3 interruptedMsg playingState).stoppedIds :=
  onmessage_interrupted_stops_all 0 3 interruptedMsg playingState rfl

/-- C3 counterexample: two buffers scheduled consecutively with no
interruption in between, where the start time of the second does not
equal the end time of the first.  The first buffer starts at 0 and ends
at 0 + 1; when the second arrives the output context clock reads 5, so
the second starts at 5, not at the previous end time 1. -/
theorem consecutive_start_ne_prev_end_cex :
    (onmessage 0 0 bufMsg schedState).sources.map SourceNode.startTime = [0] ∧
    (onmessage 0 0 bufMsg schedState).nextStartTime = 1 ∧
    (onmessage 5 0 bufMsg (onmessage 0 0 bufMsg schedState)).sources.map
      SourceNode.startTime = [0, 5] ∧
    (5 : ℚ) ≠ 0 + 1 := by
  norm_num [onmessage, onmessageAudio, onmessageTurnComplete,
    onmessageInterrupted, schedState, bufMsg, initialState, max_def]

/-- C3 (amended): each incoming buffer is scheduled at the maximum of
the end time of the previously scheduled buffer and the clock of the
output context; in particular, whenever the clock has not passed the
end of the previous buffer, consecutive buffers are scheduled exactly
back to back — the second starts at the end time (start plus duration)
of the first — so playback is gap-free and sequential. -/
theorem consecutive_buffers_gap_free
    (ct1 ct2 : ℚ) (n1 n2 : Nat) (buf1 buf2 : AudioBuffer) (s : AppState)
    (hCtx : s.outputAudioContext.isSome = true)
    (hNode : s.outputNode.isSome = true)
    (h2 : ct2 ≤ max s.nextStartTime ct1 + buf1.duration) :
    (onmessage ct2 n2
        { audioData := some buf2, turnComplete := false, interrupted := false }
        (onmessage ct1 n1
          { audioData := some buf1, turnComplete := false, interrupted := false }
          s)).sources =
      s.sources ++
        [{ id := s.nextSourceId, buffer := buf1,
           startTime := max s.nextStartTime ct1 },
         { id := s.nextSourceId + 1, buffer := buf2,
           startTime := max s.nextStartTime ct1 + buf1.duration }] := by
  simp [onmessage, onmessageInterrupted, onmessageTurnComplete, onmessageAudio,
    hCtx, hNode, max_eq_left h2]

/-- Witness for the amended C3 at two concrete consecutive buffers. -/
theorem consecutive_buffers_gap_free_witness :
    (onmessage 0 1
        { audioData := some { duration := 2 }, turnComplete := false,
          interrupted := false }
        (onmessage 0 0
          { audioData := some { duration := 1 }, turnComplete := false,
            interrupted := false }
          schedState)).sources =
      schedState.sources ++
        [{ id := schedState.nextSourceId, buffer := { duration := 1 },
           startTime := max schedState.nextStartTime 0 },
         { id := schedState.nextSourceId + 1, buffer := { duration := 2 },
           startTime := max schedState.nextStartTime 0 + (1 : ℚ) }] :=
  consecutive_buffers_gap_free 0 0 0 1 { duration := 1 } { duration := 2 }
    schedState rfl rfl (by simp [schedState, initialState])

/-- C4: when the session error callback fires, the connection state
becomes ERROR and everything is torn down: the session reference, media
stream, both audio contexts, script processor and output node are
cleared, every in-flight source is stopped and the set emptied, the
next-start-time scalar is reset to zero and the volume is reset to
zero.  No recovery action beyond this teardown exists in `onerror`. -/
theorem onerror_tears_down (now : Nat) (s : AppState) :
    (onerror now s).connectionState = ConnectionState.ERROR ∧
    (onerror now s).session = none ∧
    (onerror now s).mediaStream = none ∧
    (onerror now s).inputAudioContext = none ∧
    (onerror now s).outputAudioContext = none ∧
    (onerror now s).scriptProcessor = none ∧
    (onerror now s).outputNode = none ∧
    (onerror now s).sources = [] ∧
    (onerror now s).stoppedIds = s.stoppedIds ++ s.sources.map SourceNode.id ∧
    (onerror now s).nextStartTime = 0 ∧
    (onerror now s).volume = 0 := by
  simp [onerror, cleanup]

/-- C5: for every microphone frame processed by the capture callback,
the computed volume scalar is the RMS of the frame — it is nonnegative
and its square is the mean of the squared samples — and the frame is
PCM-encoded into a blob and handed to `sendRealtimeInput`. -/
theorem onaudioprocess_rms_and_send (frame : List ℚ) (s : AppState) :
    rms frame ^ 2 = (sumSq frame : ℝ) / (frame.length : ℝ) ∧
    0 ≤ rms frame ∧
    (onaudioprocess frame s).sent =
      s.sent ++ [OutMessage.realtimeAudio (createBlob frame)] ∧
    (onaudioprocess frame s).volume = max (rms frame * 5) (s.volume * 0.9) := by
  refine ⟨?_, Real.sqrt_nonneg _, rfl, rfl⟩
  unfold rms
  rw [Real.sq_sqrt]
  apply div_nonneg
  · exact_mod_cast sumSq_nonneg frame
  · exact Nat.cast_nonneg _

/-- C6: the connection indicator is a four-state enum: after any step of
the client the connection state is exactly one of disconnected,
connecting, connected or error. -/
theorem connectionState_four_valued (e : Event) (s : AppState) :
    (step e s).connectionState = ConnectionState.DISCONNECTED ∨
    (step e s).connectionState = ConnectionState.CONNECTING ∨
    (step e s).connectionState = ConnectionState.CONNECTED ∨
    (step e s).connectionState = ConnectionState.ERROR := by
  cases h : (step e s).connectionState <;> simp

/-- C7 counterexample: `handleDisconnect` is not a session lifecycle
callback, yet it changes the connection state of a connected client. -/
theorem step_disconnect_changes_connectionState_cex :
    (step (Event.disconnect 0) connectedState).connectionState ≠
      connectedState.connectionState := by
  decide

/-- C7 (amended): connection-state transitions occur only in
`handleConnect` (CONNECTING, and ERROR in its catch branch),
`handleDisconnect` (DISCONNECTED) and the session callbacks `onopen`,
`onclose` and `onerror`; every other entry point of the client leaves
the connection state unchanged. -/
theorem connectionState_unchanged_off_lifecycle (e : Event) (s : AppState)
    (h : e.setsConnectionState = false) :
    (step e s).connectionState = s.connectionState := by
  cases e with
  | connectStart now => simp [Event.setsConnectionState] at h
  | connectFailed now => simp [Event.setsConnectionState] at h
  | sessionOpen now => simp [Event.setsConnectionState] at h
  | sessionClose now => simp [Event.setsConnectionState] at h
  | sessionError now => simp [Event.setsConnectionState] at h
  | disconnect now => simp [Event.setsConnectionState] at h
  | sessionMessage ct now msg => exact onmessage_connectionState ct now msg s
  | sendText now => exact handleSendText_connectionState now s
  | keyDown key now => exact handleKeyDown_connectionState key now s
  | audioFrame frame => rfl
  | sourceDone i => rfl
  | textInputChange t => rfl
  | imageUpload now file => exact handleImageUpload_connectionState now file s

/-- Witness for the amended C7 at a concrete non-lifecycle event. -/
theorem connectionState_unchanged_off_lifecycle_witness :
    (Event.sourceDone 0).setsConnectionState = false ∧
    (step (Event.sourceDone 0) initialState).connectionState =
      initialState.connectionState :=
  ⟨rfl, connectionState_unchanged_off_lifecycle (Event.sourceDone 0)
    initialState rfl⟩

/-- C8: the display log is append-only and chronological: `addLog`
appends exactly one tagged entry at the end, never removing or
reordering existing entries, and any run of `addLog` calls whose clock
reads are at least the existing timestamps and non-decreasing yields a
log whose timestamps are non-decreasing in list order. -/
theorem addLog_appends_and_runLog_chronological :
    (∀ (ty : LogType) (tx : String) (now : Nat) (logs : List LogMessage),
      addLog ty tx now logs =
        logs ++ [{ type := ty, text := tx, timestamp := now }]) ∧
    (∀ (ops : List (LogType × String × Nat)) (logs : List LogMessage),
      List.Sorted (· ≤ ·) (logTimes logs ++ ops.map (fun o => o.2.2)) →
      List.Sorted (· ≤ ·) (logTimes (runLog ops logs))) := by
  refine ⟨fun ty tx now logs => rfl, fun ops logs h => ?_⟩
  rw [runLog_eq_append]
  simpa [logTimes, Function.comp] using h

/-- Witness for C8 at a concrete run of three log operations. -/
theorem addLog_appends_and_runLog_chronological_witness :
    addLog LogType.system "a" 1 [] =
      [{ type := LogType.system, text := "a", timestamp := 1 }] ∧
    List.Sorted (· ≤ ·) (logTimes (runLog
      [(LogType.user, "b", 2), (LogType.model, "c", 3)]
      (addLog LogType.system "a" 1 []))) :=
  ⟨addLog_appends_and_runLog_chronological.1 LogType.system "a" 1 [],
   addLog_appends_and_runLog_chronological.2
     [(LogType.user, "b", 2), (LogType.model, "c", 3)]
     (addLog LogType.system "a" 1 []) (by decide)⟩

/-- C9: `cleanup` is idempotent — running it twice leaves the state
identical to running it once — and running it from an already-clean
state changes nothing. -/
theorem cleanup_idempotent_and_fixed (s : AppState) :
    cleanup (cleanup s) = cleanup s ∧ (IsClean s → cleanup s = s) := by
  constructor
  · simp [cleanup]
  · rintro ⟨h1, h2, h3, h4, h5, h6, h7, h8, h9, h10⟩
    cases s
    simp_all [cleanup]

/-- Witness for C9 at the concrete initial (already-clean) state. -/
theorem cleanup_idempotent_and_fixed_witness :
    IsClean initialState ∧ cleanup initialState = initialState := by
  have h : IsClean initialState :=
    ⟨rfl, rfl, rfl, rfl, rfl, rfl, rfl, rfl, rfl, rfl⟩
  exact ⟨h, (cleanup_idempotent_and_fixed initialState).2 h⟩

/-- C10: `handleSendText` is guarded: if the text input trims to the
empty string or the session reference is null it returns with the state
unchanged — nothing sent, nothing logged, text input untouched —
otherwise it appends exactly one user-tagged log entry with the trimmed
text, sends that trimmed text to the session, and clears the input. -/
theorem handleSendText_guarded (now : Nat) (s : AppState) :
    (jsTrim s.textInput = "" ∨ s.session = none → handleSendText now s = s) ∧
    (¬(jsTrim s.textInput = "" ∨ s.session = none) →
      (handleSendText now s).logs = s.logs ++
        [{ type := LogType.user, text := jsTrim s.textInput,
           timestamp := now }] ∧
      (handleSendText now s).sent =
        s.sent ++ [OutMessage.textMsg (jsTrim s.textInput)] ∧
      (handleSendText now s).textInput = "") := by
  constructor
  · intro h; simp [handleSendText, h]
  · intro h; simp [handleSendText, h, addLog]

/-- Witness for C10 at a concrete live session with pending text. -/
theorem handleSendText_guarded_witness :
    (handleSendText 5 sendTextState).logs = sendTextState.logs ++
      [{ type := LogType.user, text := jsTrim sendTextState.textInput,
         timestamp := 5 }] ∧
    (handleSendText 5 sendTextState).sent =
      sendTextState.sent ++
        [OutMessage.textMsg (jsTrim sendTextState.textInput)] ∧
    (handleSendText 5 sendTextState).textInput = "" :=
  (handleSendText_guarded 5 sendTextState).2 (by decide)

end LitlaSorpa
